import Mathlib

set_option maxRecDepth 8000

/-!
# Verification of the `indian_screener` stock screener

Shallow embedding of `indian_screener/screener/{technical,screen,config,universe}.py`.

Conventions of the embedding:
* Python floats are modelled as `ℚ`; a value that is `None` or `NaN` in the
  source (both render as "unknown" downstream) is `none : Option ℚ`.
* pandas `Series.rolling(...).mean()` evaluated at the last row of a NaN-free
  series is modelled by `rollingMeanLast`.
* External collaborators (yfinance price history, fundamentals, the NSE
  promoter endpoint, the index-CSV HTTP fetch) are passed in as oracle
  functions, exactly at the boundary where the source calls them.
-/

/-- One row of the OHLCV price DataFrame handed to `compute_technical_snapshot`.
A `none` entry models a NaN cell (removed by the `.dropna()` calls there). -/
structure Bar where
  close : Option ℚ
  high : Option ℚ
  low : Option ℚ
  volume : Option ℚ
deriving Repr, DecidableEq

/-- `series.rolling(window=w, min_periods=mp).mean()` evaluated at the most
recent row of a NaN-free series `xs`: the trailing window is truncated to the
start of the series, and the value exists when that window holds at least `mp`
observations (all call sites use `mp ≥ 1`). -/
def rollingMeanLast (xs : List ℚ) (w mp : ℕ) : Option ℚ :=
  let k := min w xs.length
  if mp ≤ k then some ((xs.drop (xs.length - k)).sum / (k : ℚ)) else none

/-- `technical.simple_moving_average` (which is
`series.rolling(window=window, min_periods=max(1, window // 2)).mean()`)
evaluated at the most recent row. -/
def simple_moving_average_last (xs : List ℚ) (window : ℕ) : Option ℚ :=
  rollingMeanLast xs window (max 1 (window / 2))

/-- `series.diff()` without its leading NaN: day-over-day deltas. -/
def diffs (xs : List ℚ) : List ℚ :=
  (xs.zip xs.tail).map fun p => p.2 - p.1

/-- `delta.clip(lower=0)`: positive deltas, zero otherwise. -/
def gainsOf (ds : List ℚ) : List ℚ := ds.map fun d => max d 0

/-- `-1 * delta.clip(upper=0)`: magnitudes of negative deltas, zero otherwise. -/
def lossesOf (ds : List ℚ) : List ℚ := ds.map fun d => max (-d) 0

/-- `up.rolling(window=14, min_periods=14).mean()` at the most recent row.
The pandas delta series starts with a NaN (from `.diff()`), so the strict
14-observation window at the last row is complete exactly when at least 14
real deltas exist, i.e. the close series has at least 15 observations. -/
def avg_gain_last (xs : List ℚ) : Option ℚ :=
  let ds := diffs xs
  if 14 ≤ ds.length then some (((gainsOf ds).drop (ds.length - 14)).sum / 14) else none

/-- `down.rolling(window=14, min_periods=14).mean()` at the most recent row. -/
def avg_loss_last (xs : List ℚ) : Option ℚ :=
  let ds := diffs xs
  if 14 ≤ ds.length then some (((lossesOf ds).drop (ds.length - 14)).sum / 14) else none

/-- `technical.rsi` at the most recent row: `rs = avg_gain / avg_loss.replace(0, nan)`
and `rsi = 100 - 100 / (1 + rs)`; a zero average loss therefore yields NaN
(unknown), not 100. -/
def rsi_last (xs : List ℚ) : Option ℚ :=
  match avg_gain_last xs, avg_loss_last xs with
  | some g, some l => if l = 0 then none else some (100 - 100 / (1 + g / l))
  | _, _ => none

/-- `float(high.tail(252).max()) if len(high) >= 20 else nan`. -/
def rollingMax252 (xs : List ℚ) : Option ℚ :=
  if 20 ≤ xs.length then (xs.drop (xs.length - min 252 xs.length)).max? else none

/-- `float(low.tail(252).min()) if len(low) >= 20 else nan`. -/
def rollingMin252 (xs : List ℚ) : Option ℚ :=
  if 20 ≤ xs.length then (xs.drop (xs.length - min 252 xs.length)).min? else none

/-- The dict returned by `technical.compute_technical_snapshot` for a nonempty
DataFrame.  The three derived flags are genuine booleans there (`False` when an
operand is NaN); the volume multiple is NaN unless both operands are known and
the 50-day average volume is strictly positive. -/
structure TechnicalSnapshot where
  close : Option ℚ
  sma50 : Option ℚ
  sma200 : Option ℚ
  rsi14 : Option ℚ
  vol : Option ℚ
  vol50 : Option ℚ
  high_52w : Option ℚ
  low_52w : Option ℚ
  price_above_200d : Bool
  sma50_above_200d : Bool
  within_10pct_52w_high : Bool
  volume_mult_vs_50d : Option ℚ
deriving Repr, DecidableEq

/-- `technical.compute_technical_snapshot`; `none` is the `{}` returned for an
empty DataFrame. -/
def compute_technical_snapshot (df : List Bar) : Option TechnicalSnapshot :=
  if df.isEmpty then none else
  let closeS := df.filterMap Bar.close
  let highS := df.filterMap Bar.high
  let lowS := df.filterMap Bar.low
  let volumeS := df.filterMap Bar.volume
  let lastClose := closeS.getLast?
  let sma50 := simple_moving_average_last closeS 50
  let sma200 := simple_moving_average_last closeS 200
  let rsi14 := rsi_last closeS
  let vol50 := rollingMeanLast volumeS 50 10
  let lastVol := volumeS.getLast?
  some
    { close := lastClose
      sma50 := sma50
      sma200 := sma200
      rsi14 := rsi14
      vol := lastVol
      vol50 := vol50
      high_52w := rollingMax252 highS
      low_52w := rollingMin252 lowS
      price_above_200d :=
        match lastClose, sma200 with
        | some c, some s => decide (s < c)
        | _, _ => false
      sma50_above_200d :=
        match sma50, sma200 with
        | some a, some s => decide (s < a)
        | _, _ => false
      within_10pct_52w_high :=
        match rollingMax252 highS, lastClose with
        | some h, some c => decide ((9 : ℚ) / 10 * h ≤ c)
        | _, _ => false
      volume_mult_vs_50d :=
        match lastVol, vol50 with
        | some v, some w => if 0 < w then some (v / w) else none
        | _, _ => none }

/-! ## Configuration (`config.py`) -/

/-- `config.UniverseConfig`. -/
structure UniverseConfig where
  name : String := "NIFTY500"
  limit : Option ℕ := none
deriving Repr, DecidableEq

/-- `config.ValuationConfig`. -/
structure ValuationConfig where
  min_pe : ℚ := 5
  max_pe : ℚ := 35
  max_pb : ℚ := 6
  max_ev_ebitda : Option ℚ := some 20
deriving Repr, DecidableEq

/-- `config.GrowthConfig`. -/
structure GrowthConfig where
  min_revenue_cagr_3y : ℚ := 10
  min_eps_cagr_3y : ℚ := 10
deriving Repr, DecidableEq

/-- `config.QualityConfig`. -/
structure QualityConfig where
  min_roe : ℚ := 12
  min_roce : ℚ := 15
  max_debt_to_equity : ℚ := 4/5
  min_interest_coverage : ℚ := 3
deriving Repr, DecidableEq

/-- `config.PromoterConfig`. -/
structure PromoterConfig where
  min_promoter_change_qoq_pct_pts : ℚ := 1/10
  max_pledge_percent : Option ℚ := some 5
deriving Repr, DecidableEq

/-- `config.TechnicalConfig`. -/
structure TechnicalConfig where
  price_above_200d : Bool := true
  sma50_above_200d : Bool := true
  within_pct_52w_high : ℚ := 10
  rsi_min : ℚ := 45
  rsi_max : ℚ := 70
  min_volume_multiple_vs_50d : ℚ := 13/10
deriving Repr, DecidableEq

/-- `config.RunConfig`. -/
structure RunConfig where
  lookback_days : ℕ := 420
  batch_size : ℕ := 50
  http_timeout : ℕ := 20
  single_download : Bool := true
  download_pause_sec : ℚ := 4/5
  use_yahoo_info_fallback : Bool := false
  fundamentals_max_symbols : Option ℕ := some 150
deriving Repr, DecidableEq

/-- `config.ScreenerConfig`. -/
structure ScreenerConfig where
  «universe» : UniverseConfig := {}
  valuation : ValuationConfig := {}
  growth : GrowthConfig := {}
  quality : QualityConfig := {}
  promoter : PromoterConfig := {}
  technical : TechnicalConfig := {}
  run : RunConfig := {}
deriving Repr, DecidableEq

/-- `config.DEFAULT_CONFIG`. -/
def DEFAULT_CONFIG : ScreenerConfig := {}

/-! ## External snapshots (`fundamentals.py`, `nse.py`) -/

/-- `fundamentals.FundamentalSnapshot`: best-effort optional ratios. -/
structure FundamentalSnapshot where
  market_cap : Option ℚ := none
  pe : Option ℚ := none
  pb : Option ℚ := none
  roe : Option ℚ := none
  roce : Option ℚ := none
  debt_to_equity : Option ℚ := none
  interest_coverage : Option ℚ := none
  revenue_cagr_3y : Option ℚ := none
  eps_cagr_3y : Option ℚ := none
  ev_ebitda : Option ℚ := none
deriving Repr, DecidableEq

/-- `nse.PromoterSnapshot`. -/
structure PromoterSnapshot where
  latest_percent : Option ℚ := none
  prev_percent : Option ℚ := none
  change_qoq_pct_pts : Option ℚ := none
deriving Repr, DecidableEq

/-! ## Screen rows (`screen.run_screen`) -/

/-- The per-symbol row dict built by `run_screen`.  Every field that the source
stores as float-or-`None`/NaN is an `Option ℚ`; the two trend flags are genuine
booleans once a technical snapshot was computed and `None` otherwise (fetch
failure / empty history), which the model captures as `Option Bool`. -/
structure ScreenRow where
  ticker : String
  close : Option ℚ := none
  sma50 : Option ℚ := none
  sma200 : Option ℚ := none
  rsi14 : Option ℚ := none
  vol : Option ℚ := none
  vol50 : Option ℚ := none
  high_52w : Option ℚ := none
  low_52w : Option ℚ := none
  price_above_200d : Option Bool := none
  sma50_above_200d : Option Bool := none
  within_10pct_52w_high : Option Bool := none
  volume_mult_vs_50d : Option ℚ := none
  within_pct_52w_high : Option ℚ := none
  market_cap : Option ℚ := none
  pe : Option ℚ := none
  pb : Option ℚ := none
  roe : Option ℚ := none
  roce : Option ℚ := none
  debt_to_equity : Option ℚ := none
  interest_coverage : Option ℚ := none
  revenue_cagr_3y : Option ℚ := none
  eps_cagr_3y : Option ℚ := none
  ev_ebitda : Option ℚ := none
  promoter_latest_pct : Option ℚ := none
  promoter_prev_pct : Option ℚ := none
  promoter_change_qoq_pct_pts : Option ℚ := none
deriving Repr, DecidableEq

/-- `base["within_pct_52w_high"]`: computed as `(1 - close/high_52w) * 100` only
when `base.get("close") and base.get("high_52w")` is truthy.  A Python `None` or
a literal `0.0` is falsy (yielding `None`); a NaN operand is truthy but makes
the arithmetic produce NaN, which is again "unknown", so in the `Option` model
the value exists exactly when both operands are known and nonzero. -/
def withinPct52wHigh (close high_52w : Option ℚ) : Option ℚ :=
  match close, high_52w with
  | some c, some h => if c ≠ 0 ∧ h ≠ 0 then some ((1 - c / h) * 100) else none
  | _, _ => none

/-- The technical-only row assembled for one symbol in the first loop of
`run_screen` (`base = {"ticker": ...}; base.update(tech); setdefault ...`). -/
def mkTechRow (ticker : String) (hist : List Bar) : ScreenRow :=
  match compute_technical_snapshot hist with
  | none =>
      { ticker := ticker, within_pct_52w_high := withinPct52wHigh none none }
  | some t =>
      { ticker := ticker
        close := t.close
        sma50 := t.sma50
        sma200 := t.sma200
        rsi14 := t.rsi14
        vol := t.vol
        vol50 := t.vol50
        high_52w := t.high_52w
        low_52w := t.low_52w
        price_above_200d := some t.price_above_200d
        sma50_above_200d := some t.sma50_above_200d
        within_10pct_52w_high := some t.within_10pct_52w_high
        volume_mult_vs_50d := t.volume_mult_vs_50d
        within_pct_52w_high := withinPct52wHigh t.close t.high_52w }

/-- The enrichment step of `run_screen`: overwrite the fundamentals block from
the `FundamentalSnapshot` and the promoter block from the (optional)
`PromoterSnapshot`. -/
def enrichRow (base : ScreenRow) (f : FundamentalSnapshot)
    (prom : Option PromoterSnapshot) : ScreenRow :=
  let r := { base with
    market_cap := f.market_cap
    pe := f.pe
    pb := f.pb
    roe := f.roe
    roce := f.roce
    debt_to_equity := f.debt_to_equity
    interest_coverage := f.interest_coverage
    revenue_cagr_3y := f.revenue_cagr_3y
    eps_cagr_3y := f.eps_cagr_3y
    ev_ebitda := f.ev_ebitda }
  match prom with
  | some p =>
      { r with
        promoter_latest_pct := p.latest_percent
        promoter_prev_pct := p.prev_percent
        promoter_change_qoq_pct_pts := p.change_qoq_pct_pts }
  | none =>
      { r with
        promoter_latest_pct := none
        promoter_prev_pct := none
        promoter_change_qoq_pct_pts := none }

/-! ## Filter conditions (`run_screen`)

Each numeric mask in the source has the shape `(column <op> threshold) | column.isna()`,
so an unknown value passes; the two trend-flag masks are `column == True`, so an
unknown (or `False`) value fails whenever the flag is enabled in the config. -/

/-- `if tc.price_above_200d: mask &= (df["price_above_200d"] == True)`. -/
def condPriceAbove200d (cfg : ScreenerConfig) (r : ScreenRow) : Bool :=
  !cfg.technical.price_above_200d || (r.price_above_200d == some true)

/-- `if tc.sma50_above_200d: mask &= (df["sma50_above_200d"] == True)`. -/
def condSma50Above200d (cfg : ScreenerConfig) (r : ScreenRow) : Bool :=
  !cfg.technical.sma50_above_200d || (r.sma50_above_200d == some true)

/-- `(df["within_pct_52w_high"] <= tc.within_pct_52w_high) | isna`. -/
def condWithinPct (cfg : ScreenerConfig) (r : ScreenRow) : Bool :=
  match r.within_pct_52w_high with
  | none => true
  | some x => decide (x ≤ cfg.technical.within_pct_52w_high)

/-- `(df["rsi14"].between(tc.rsi_min, tc.rsi_max)) | isna`. -/
def condRsiBand (cfg : ScreenerConfig) (r : ScreenRow) : Bool :=
  match r.rsi14 with
  | none => true
  | some x => decide (cfg.technical.rsi_min ≤ x ∧ x ≤ cfg.technical.rsi_max)

/-- `(df["volume_mult_vs_50d"] >= tc.min_volume_multiple_vs_50d) | isna`. -/
def condVolumeMult (cfg : ScreenerConfig) (r : ScreenRow) : Bool :=
  match r.volume_mult_vs_50d with
  | none => true
  | some x => decide (cfg.technical.min_volume_multiple_vs_50d ≤ x)

/-- `(df["pe"].between(vc.min_pe, vc.max_pe)) | isna`. -/
def condPe (cfg : ScreenerConfig) (r : ScreenRow) : Bool :=
  match r.pe with
  | none => true
  | some x => decide (cfg.valuation.min_pe ≤ x ∧ x ≤ cfg.valuation.max_pe)

/-- `(df["pb"] <= vc.max_pb) | isna`. -/
def condPb (cfg : ScreenerConfig) (r : ScreenRow) : Bool :=
  match r.pb with
  | none => true
  | some x => decide (x ≤ cfg.valuation.max_pb)

/-- `if vc.max_ev_ebitda is not None: mask &= (df["ev_ebitda"] <= vc.max_ev_ebitda) | isna`. -/
def condEvEbitda (cfg : ScreenerConfig) (r : ScreenRow) : Bool :=
  match cfg.valuation.max_ev_ebitda with
  | none => true
  | some m =>
      match r.ev_ebitda with
      | none => true
      | some x => decide (x ≤ m)

/-- `(df["revenue_cagr_3y"] >= gc.min_revenue_cagr_3y) | isna`. -/
def condRevenueCagr (cfg : ScreenerConfig) (r : ScreenRow) : Bool :=
  match r.revenue_cagr_3y with
  | none => true
  | some x => decide (cfg.growth.min_revenue_cagr_3y ≤ x)

/-- `(df["eps_cagr_3y"] >= gc.min_eps_cagr_3y) | isna`. -/
def condEpsCagr (cfg : ScreenerConfig) (r : ScreenRow) : Bool :=
  match r.eps_cagr_3y with
  | none => true
  | some x => decide (cfg.growth.min_eps_cagr_3y ≤ x)

/-- `(df["roe"] >= qc.min_roe) | isna`. -/
def condRoe (cfg : ScreenerConfig) (r : ScreenRow) : Bool :=
  match r.roe with
  | none => true
  | some x => decide (cfg.quality.min_roe ≤ x)

/-- `(df["roce"] >= qc.min_roce) | isna`. -/
def condRoce (cfg : ScreenerConfig) (r : ScreenRow) : Bool :=
  match r.roce with
  | none => true
  | some x => decide (cfg.quality.min_roce ≤ x)

/-- `(df["debt_to_equity"] <= qc.max_debt_to_equity) | isna`. -/
def condDebtToEquity (cfg : ScreenerConfig) (r : ScreenRow) : Bool :=
  match r.debt_to_equity with
  | none => true
  | some x => decide (x ≤ cfg.quality.max_debt_to_equity)

/-- `(df["interest_coverage"] >= qc.min_interest_coverage) | isna`. -/
def condInterestCoverage (cfg : ScreenerConfig) (r : ScreenRow) : Bool :=
  match r.interest_coverage with
  | none => true
  | some x => decide (cfg.quality.min_interest_coverage ≤ x)

/-- `(df["promoter_change_qoq_pct_pts"] >= pc.min_promoter_change_qoq_pct_pts) | isna`. -/
def condPromoterChange (cfg : ScreenerConfig) (r : ScreenRow) : Bool :=
  match r.promoter_change_qoq_pct_pts with
  | none => true
  | some x => decide (cfg.promoter.min_promoter_change_qoq_pct_pts ≤ x)

/-- Row-wise predicate of the technical prefilter mask in `run_screen`. -/
def prefilterKeep (cfg : ScreenerConfig) (r : ScreenRow) : Bool :=
  condPriceAbove200d cfg r && condSma50Above200d cfg r && condWithinPct cfg r &&
    condRsiBand cfg r && condVolumeMult cfg r

/-- Row-wise predicate of the hard-filter mask in `run_screen` (valuation,
growth, quality, promoter, then the technical block "kept for safety"). -/
def hardFilterKeep (cfg : ScreenerConfig) (r : ScreenRow) : Bool :=
  condPe cfg r && condPb cfg r && condEvEbitda cfg r &&
    condRevenueCagr cfg r && condEpsCagr cfg r &&
    condRoe cfg r && condRoce cfg r && condDebtToEquity cfg r &&
    condInterestCoverage cfg r && condPromoterChange cfg r &&
    condPriceAbove200d cfg r && condSma50Above200d cfg r && condWithinPct cfg r &&
    condRsiBand cfg r && condVolumeMult cfg r

/-- `df = df[mask]` for the prefilter. -/
def applyPrefilter (cfg : ScreenerConfig) (rows : List ScreenRow) : List ScreenRow :=
  rows.filter (prefilterKeep cfg)

/-- `df = df[mask]` for the hard filter. -/
def applyHardFilter (cfg : ScreenerConfig) (rows : List ScreenRow) : List ScreenRow :=
  rows.filter (hardFilterKeep cfg)

/-! ## Scorer (`_score_buy_row`)

Each `if` in `_score_buy_row` inspects exactly one row field and adds a fixed
weight.  Guards written `row.get(k) and <cmp>` use Python truthiness, so a
literal `0.0` value never scores (and a NaN value fails the comparison);
guards written `row.get(k) is not None` score on any known value meeting the
comparison.  The score is the sum of the fifteen independent contributions. -/

/-- The fifteen signals scored by `_score_buy_row`, in source order. -/
inductive Signal
  | pe | pb | evEbitda | revenueCagr | epsCagr | roe | roce | debtToEquity
  | interestCoverage | promoterChange | priceAbove200d | sma50Above200d
  | withinPctHigh | rsi14 | volumeMult
deriving Repr, DecidableEq

/-- A signal's value in a row: numeric fields carry `Option ℚ`, the two trend
flags carry `Option Bool`. -/
inductive SigVal
  | num (x : Option ℚ)
  | flag (b : Option Bool)
deriving Repr, DecidableEq

/-- Read a signal's value from a row. -/
def getSignal (r : ScreenRow) : Signal → SigVal
  | .pe => .num r.pe
  | .pb => .num r.pb
  | .evEbitda => .num r.ev_ebitda
  | .revenueCagr => .num r.revenue_cagr_3y
  | .epsCagr => .num r.eps_cagr_3y
  | .roe => .num r.roe
  | .roce => .num r.roce
  | .debtToEquity => .num r.debt_to_equity
  | .interestCoverage => .num r.interest_coverage
  | .promoterChange => .num r.promoter_change_qoq_pct_pts
  | .priceAbove200d => .flag r.price_above_200d
  | .sma50Above200d => .flag r.sma50_above_200d
  | .withinPctHigh => .num r.within_pct_52w_high
  | .rsi14 => .num r.rsi14
  | .volumeMult => .num r.volume_mult_vs_50d

/-- Replace a signal's value in a row (a kind-mismatched value is a no-op). -/
def setSignal (r : ScreenRow) : Signal → SigVal → ScreenRow
  | .pe, .num x => { r with pe := x }
  | .pb, .num x => { r with pb := x }
  | .evEbitda, .num x => { r with ev_ebitda := x }
  | .revenueCagr, .num x => { r with revenue_cagr_3y := x }
  | .epsCagr, .num x => { r with eps_cagr_3y := x }
  | .roe, .num x => { r with roe := x }
  | .roce, .num x => { r with roce := x }
  | .debtToEquity, .num x => { r with debt_to_equity := x }
  | .interestCoverage, .num x => { r with interest_coverage := x }
  | .promoterChange, .num x => { r with promoter_change_qoq_pct_pts := x }
  | .priceAbove200d, .flag b => { r with price_above_200d := b }
  | .sma50Above200d, .flag b => { r with sma50_above_200d := b }
  | .withinPctHigh, .num x => { r with within_pct_52w_high := x }
  | .rsi14, .num x => { r with rsi14 := x }
  | .volumeMult, .num x => { r with volume_mult_vs_50d := x }
  | _, _ => r

/-- The unknown value of a signal (`None`/NaN in the source). -/
def unknownSigVal : Signal → SigVal
  | .priceAbove200d => .flag none
  | .sma50Above200d => .flag none
  | _ => .num none

/-- The fixed weight each signal contributes when it scores. -/
def sigWeight : Signal → ℚ
  | .rsi14 => 1/2
  | .volumeMult => 1/2
  | _ => 1

/-- The contribution of one signal value to `_score_buy_row`, one clause per
`if` statement of the source (truthiness guards included). -/
def contrib (cfg : ScreenerConfig) : Signal → SigVal → ℚ
  | .pe, .num (some x) =>
      if x ≠ 0 ∧ cfg.valuation.min_pe ≤ x ∧ x ≤ cfg.valuation.max_pe then 1 else 0
  | .pb, .num (some x) => if x ≠ 0 ∧ x ≤ cfg.valuation.max_pb then 1 else 0
  | .evEbitda, .num (some x) =>
      (match cfg.valuation.max_ev_ebitda with
       | some m => if x ≠ 0 ∧ m ≠ 0 ∧ x ≤ m then 1 else 0
       | none => 0)
  | .revenueCagr, .num (some x) =>
      if x ≠ 0 ∧ cfg.growth.min_revenue_cagr_3y ≤ x then 1 else 0
  | .epsCagr, .num (some x) =>
      if x ≠ 0 ∧ cfg.growth.min_eps_cagr_3y ≤ x then 1 else 0
  | .roe, .num (some x) => if x ≠ 0 ∧ cfg.quality.min_roe ≤ x then 1 else 0
  | .roce, .num (some x) => if x ≠ 0 ∧ cfg.quality.min_roce ≤ x then 1 else 0
  | .debtToEquity, .num (some x) => if x ≤ cfg.quality.max_debt_to_equity then 1 else 0
  | .interestCoverage, .num (some x) =>
      if x ≠ 0 ∧ cfg.quality.min_interest_coverage ≤ x then 1 else 0
  | .promoterChange, .num (some x) =>
      if cfg.promoter.min_promoter_change_qoq_pct_pts ≤ x then 1 else 0
  | .priceAbove200d, .flag (some true) => 1
  | .sma50Above200d, .flag (some true) => 1
  | .withinPctHigh, .num (some x) =>
      if x ≤ cfg.technical.within_pct_52w_high then 1 else 0
  | .rsi14, .num (some x) =>
      if x ≠ 0 ∧ cfg.technical.rsi_min ≤ x ∧ x ≤ cfg.technical.rsi_max then 1/2 else 0
  | .volumeMult, .num (some x) =>
      if x ≠ 0 ∧ cfg.technical.min_volume_multiple_vs_50d ≤ x then 1/2 else 0
  | _, _ => 0

/-- The favorable-threshold predicate of the specification for each signal
(the plain comparison, without the truthiness quirks of the code). -/
def favorable (cfg : ScreenerConfig) : Signal → SigVal → Prop
  | .pe, .num (some x) => cfg.valuation.min_pe ≤ x ∧ x ≤ cfg.valuation.max_pe
  | .pb, .num (some x) => x ≤ cfg.valuation.max_pb
  | .evEbitda, .num (some x) =>
      (match cfg.valuation.max_ev_ebitda with
       | some m => m ≠ 0 ∧ x ≤ m
       | none => False)
  | .revenueCagr, .num (some x) => cfg.growth.min_revenue_cagr_3y ≤ x
  | .epsCagr, .num (some x) => cfg.growth.min_eps_cagr_3y ≤ x
  | .roe, .num (some x) => cfg.quality.min_roe ≤ x
  | .roce, .num (some x) => cfg.quality.min_roce ≤ x
  | .debtToEquity, .num (some x) => x ≤ cfg.quality.max_debt_to_equity
  | .interestCoverage, .num (some x) => cfg.quality.min_interest_coverage ≤ x
  | .promoterChange, .num (some x) => cfg.promoter.min_promoter_change_qoq_pct_pts ≤ x
  | .priceAbove200d, .flag (some b) => b = true
  | .sma50Above200d, .flag (some b) => b = true
  | .withinPctHigh, .num (some x) => x ≤ cfg.technical.within_pct_52w_high
  | .rsi14, .num (some x) => cfg.technical.rsi_min ≤ x ∧ x ≤ cfg.technical.rsi_max
  | .volumeMult, .num (some x) => cfg.technical.min_volume_multiple_vs_50d ≤ x
  | _, _ => False

/-- `_score_buy_row`: the sum of the fifteen contributions, in source order. -/
def score_buy_row (cfg : ScreenerConfig) (r : ScreenRow) : ℚ :=
  contrib cfg .pe (getSignal r .pe) +
  contrib cfg .pb (getSignal r .pb) +
  contrib cfg .evEbitda (getSignal r .evEbitda) +
  contrib cfg .revenueCagr (getSignal r .revenueCagr) +
  contrib cfg .epsCagr (getSignal r .epsCagr) +
  contrib cfg .roe (getSignal r .roe) +
  contrib cfg .roce (getSignal r .roce) +
  contrib cfg .debtToEquity (getSignal r .debtToEquity) +
  contrib cfg .interestCoverage (getSignal r .interestCoverage) +
  contrib cfg .promoterChange (getSignal r .promoterChange) +
  contrib cfg .priceAbove200d (getSignal r .priceAbove200d) +
  contrib cfg .sma50Above200d (getSignal r .sma50Above200d) +
  contrib cfg .withinPctHigh (getSignal r .withinPctHigh) +
  contrib cfg .rsi14 (getSignal r .rsi14) +
  contrib cfg .volumeMult (getSignal r .volumeMult)

/-! ## Final ordering (`sort_values(["score", "market_cap"], ascending=[False, False])`)

pandas sorts with `na_position="last"`, so within a score tie a known market
cap (larger first) precedes an unknown one. -/

/-- "Comes no later than" on market caps: descending, unknown last. -/
def marketCapLE : Option ℚ → Option ℚ → Bool
  | some x, some y => decide (y ≤ x)
  | some _, none => true
  | none, some _ => false
  | none, none => true

/-- "Comes no later than" on scored rows: score descending, ties by market cap
descending with unknown market cap last. -/
def rowLEb (a b : ScreenRow × ℚ) : Bool :=
  decide (b.2 < a.2) || (decide (a.2 = b.2) && marketCapLE a.1.market_cap b.1.market_cap)

/-- `rowLEb` as a relation. -/
def rowLE (a b : ScreenRow × ℚ) : Prop := rowLEb a b = true

instance : DecidableRel rowLE := fun a b => inferInstanceAs (Decidable (rowLEb a b = true))

/-! ## The pipeline (`run_screen`)

Inputs beyond the symbol list and config are the three external collaborators,
passed as oracles: `hist` (price history per Yahoo ticker; `[]` stands for a
failed download or an empty frame), `funda` (`compute_fundamental_snapshot`,
which never raises past its boundary), and `prom`
(`fetch_promoter_shareholding_percent` wrapped in `try/except`, hence
`Option`). -/

/-- The external collaborators of one `run_screen` invocation. -/
structure ScreenInputs where
  hist : String → List Bar
  funda : String → FundamentalSnapshot
  prom : String → Option PromoterSnapshot

/-- Phase 1: one technical-only row per symbol, in universe order. -/
def techRows (symbols : List String) (inp : ScreenInputs) : List ScreenRow :=
  symbols.map fun s => mkTechRow s (inp.hist s)

/-- `if for_buy and not df.empty: df = df[mask]` (prefilter). -/
def prefilteredRows (symbols : List String) (cfg : ScreenerConfig)
    (inp : ScreenInputs) (for_buy : Bool) : List ScreenRow :=
  let rows := techRows symbols inp
  if for_buy && !rows.isEmpty then applyPrefilter cfg rows else rows

/-- `symbols_for_funda`, after the fundamentals cap. -/
def symbolsForFunda (symbols : List String) (cfg : ScreenerConfig)
    (inp : ScreenInputs) (for_buy : Bool) : List String :=
  let rows := prefilteredRows symbols cfg inp for_buy
  let syms := if rows.isEmpty then [] else rows.map ScreenRow.ticker
  match cfg.run.fundamentals_max_symbols with
  | some m => syms.take m
  | none => syms

/-- `tech_map = {r["ticker"]: r for r in tech_rows}; tech_map.get(yticker, ...)`
(a duplicated ticker keeps the last row, as a Python dict does). -/
def techMapGet (rows : List ScreenRow) (s : String) : Option ScreenRow :=
  (rows.filter fun r => r.ticker == s).getLast?

/-- Phase 4: enrich each capped symbol with fundamentals and promoter data.
The promoter call strips the `.NS` suffix first. -/
def enrichedRows (symbols : List String) (cfg : ScreenerConfig)
    (inp : ScreenInputs) (for_buy : Bool) : List ScreenRow :=
  (symbolsForFunda symbols cfg inp for_buy).map fun s =>
    let base := (techMapGet (techRows symbols inp) s).getD { ticker := s }
    enrichRow base (inp.funda s) (inp.prom (s.replace ".NS" ""))

/-- `df = pd.DataFrame(enriched_rows) if enriched_rows else pd.DataFrame(tech_rows)`:
when nothing was enriched the source falls back to the full technical row set. -/
def dfRowsAfterEnrich (symbols : List String) (cfg : ScreenerConfig)
    (inp : ScreenInputs) (for_buy : Bool) : List ScreenRow :=
  let e := enrichedRows symbols cfg inp for_buy
  if e.isEmpty then techRows symbols inp else e

/-- `if for_buy and not df.empty: df = df[mask]` (hard filter). -/
def hardFilteredRows (symbols : List String) (cfg : ScreenerConfig)
    (inp : ScreenInputs) (for_buy : Bool) : List ScreenRow :=
  let rows := dfRowsAfterEnrich symbols cfg inp for_buy
  if for_buy && !rows.isEmpty then applyHardFilter cfg rows else rows

/-- `if not df.empty: df = df.assign(score=...).sort_values(["score", "market_cap"],
ascending=[False, False])` — the rows of the returned table, each paired with
its score.  An empty frame is returned as-is (and never receives a score
column). -/
def runScreenRows (symbols : List String) (cfg : ScreenerConfig)
    (inp : ScreenInputs) (for_buy : Bool) : List (ScreenRow × ℚ) :=
  let rows := hardFilteredRows symbols cfg inp for_buy
  if rows.isEmpty then []
  else List.insertionSort rowLE (rows.map fun r => (r, score_buy_row cfg r))

/-! ## Output columns (`run_screen`)

`pd.DataFrame(list_of_dicts)` has one column per dict key, in order of first
appearance; the `expected_cols` loop then appends any still-missing column; the
`score` column exists only when the frame reaching the scoring step is
nonempty. -/

/-- Append a key unless already present (`df[col] = nan` for a missing column,
or a dict key union). -/
def addKey (acc : List String) (k : String) : List String :=
  if k ∈ acc then acc else acc ++ [k]

/-- Append each key of `ks` unless already present. -/
def addKeys (acc : List String) (ks : List String) : List String :=
  ks.foldl addKey acc

/-- Keys of the dict of the snapshot returned for a nonempty price frame, in
insertion order. -/
def snapshotKeys : List String :=
  ["close", "sma50", "sma200", "rsi14", "vol", "vol50", "high_52w", "low_52w",
   "price_above_200d", "sma50_above_200d", "within_10pct_52w_high", "volume_mult_vs_50d"]

/-- The `base.setdefault` key list of `run_screen`. -/
def setdefaultKeys : List String :=
  ["close", "high_52w", "low_52w", "sma50", "sma200", "rsi14", "vol", "vol50",
   "price_above_200d", "sma50_above_200d", "volume_mult_vs_50d"]

/-- Keys of a technical-only row dict: `{"ticker"}` updated with the snapshot
(when one was computed), the `setdefault` keys, then `within_pct_52w_high`. -/
def techRowKeys (computed : Bool) : List String :=
  addKey (addKeys (addKeys ["ticker"] (if computed then snapshotKeys else []))
    setdefaultKeys) "within_pct_52w_high"

/-- Keys appended to a row dict by the enrichment phase, in insertion order. -/
def enrichKeys : List String :=
  ["market_cap", "pe", "pb", "roe", "roce", "debt_to_equity", "interest_coverage",
   "revenue_cagr_3y", "eps_cagr_3y", "ev_ebitda",
   "promoter_latest_pct", "promoter_prev_pct", "promoter_change_qoq_pct_pts"]

/-- The `expected_cols` list of `run_screen`. -/
def expectedCols : List String :=
  ["market_cap", "pe", "pb", "roe", "roce", "debt_to_equity", "interest_coverage",
   "revenue_cagr_3y", "eps_cagr_3y", "ev_ebitda",
   "promoter_change_qoq_pct_pts", "promoter_latest_pct", "promoter_prev_pct",
   "price_above_200d", "sma50_above_200d", "within_pct_52w_high", "rsi14",
   "volume_mult_vs_50d"]

/-- Key lists of the row dicts of the frame built at `df = pd.DataFrame(...)`
after enrichment (falling back to the technical rows when nothing was
enriched). -/
def dfKeyLists (symbols : List String) (cfg : ScreenerConfig)
    (inp : ScreenInputs) (for_buy : Bool) : List (List String) :=
  let capped := symbolsForFunda symbols cfg inp for_buy
  if capped.isEmpty then
    symbols.map fun s => techRowKeys (!(inp.hist s).isEmpty)
  else
    capped.map fun s => addKeys (techRowKeys (!(inp.hist s).isEmpty)) enrichKeys

/-- The column list of the table returned by `run_screen`: union of the row
dicts' keys, then the `expected_cols` fill-in, then `score` if the final frame
is nonempty. -/
def runScreenCols (symbols : List String) (cfg : ScreenerConfig)
    (inp : ScreenInputs) (for_buy : Bool) : List String :=
  let base := (dfKeyLists symbols cfg inp for_buy).foldl addKeys []
  let withExpected := addKeys base expectedCols
  if (hardFilteredRows symbols cfg inp for_buy).isEmpty then withExpected
  else addKey withExpected "score"

/-! ## Universe provider (`universe.py`) -/

/-- Python `str.upper()` (model: character-wise upper-casing). -/
def upperString (s : String) : String := ⟨s.data.map Char.toUpper⟩

/-- Python `str.lower()` (model: character-wise lower-casing). -/
def lowerString (s : String) : String := ⟨s.data.map Char.toLower⟩

/-- Python `str.strip()` (model: drop whitespace from both ends). -/
def stripString (s : String) : String :=
  ⟨((s.data.dropWhile Char.isWhitespace).reverse.dropWhile Char.isWhitespace).reverse⟩

/-- `universe.NIFTY_CSV_URLS`. -/
def NIFTY_CSV_URLS : List (String × String) :=
  [("NIFTY50", "https://archives.nseindia.com/content/indices/ind_nifty50list.csv"),
   ("NIFTY200", "https://archives.nseindia.com/content/indices/ind_nifty200list.csv"),
   ("NIFTY500", "https://archives.nseindia.com/content/indices/ind_nifty500list.csv")]

/-- The parsed CSV of an index constituents file: its (already parsed) header
and the values of its symbol column. -/
structure IndexCsv where
  columns : List String
  symbols : List String
deriving Repr, DecidableEq

/-- Outcome of `requests.get(url)`: a parsed body, or a non-2xx status (on
which `raise_for_status` raises). -/
inductive HttpResult
  | ok (csv : IndexCsv)
  | httpError (status : ℕ)

/-- `universe.fetch_nifty_constituents`: the unknown-index check happens before
the network oracle is consulted; an HTTP error status raises; a header without
a `Symbol` column (case-insensitively) raises; otherwise the column is
normalized to `Symbol` and the frame returned. -/
def fetch_nifty_constituents (net : String → HttpResult) (index_name : String) :
    Except String IndexCsv :=
  let idx := upperString index_name
  match NIFTY_CSV_URLS.lookup idx with
  | none => .error ("Unsupported index: " ++ idx)
  | some url =>
      match net url with
      | .httpError status => .error ("HTTPError " ++ toString status)
      | .ok csv =>
          let cols := csv.columns.map stripString
          if "Symbol" ∈ cols then .ok { csv with columns := cols }
          else
            match cols.find? (fun c => lowerString c == "symbol") with
            | some c =>
                .ok { csv with
                      columns := cols.map fun x => if x = c then "Symbol" else x }
            | none => .error "Symbol column not found in index CSV"

/-- `universe.to_yahoo_ticker`. -/
def to_yahoo_ticker (nse_symbol : String) : String :=
  upperString (stripString nse_symbol) ++ ".NS"

/-- `universe.build_universe`. -/
def build_universe (net : String → HttpResult) (index_name : String)
    (limit : Option ℕ) : Except String (List String) :=
  (fetch_nifty_constituents net index_name).map fun df =>
    let symbols := df.symbols.map to_yahoo_ticker
    match limit with
    | some l => symbols.take l
    | none => symbols

/-! ## Helper lemmas about the scorer -/

/-- Whether a `SigVal` has the kind (numeric or flag) of the given signal. -/
def kindOk : Signal → SigVal → Bool
  | .priceAbove200d, .flag _ => true
  | .sma50Above200d, .flag _ => true
  | .priceAbove200d, .num _ => false
  | .sma50Above200d, .num _ => false
  | _, .num _ => true
  | _, .flag _ => false

theorem contrib_nonneg (cfg : ScreenerConfig) (s : Signal) (v : SigVal) :
    0 ≤ contrib cfg s v := by
  cases s <;> rcases v with ⟨_ | x⟩ | ⟨_ | b⟩
  all_goals try cases b
  all_goals try rcases hm : cfg.valuation.max_ev_ebitda with _ | m
  all_goals simp only [contrib]
  all_goals try simp only [hm]
  all_goals try split_ifs
  all_goals norm_num

theorem contrib_le_weight (cfg : ScreenerConfig) (s : Signal) (v : SigVal) :
    contrib cfg s v ≤ sigWeight s := by
  cases s <;> rcases v with ⟨_ | x⟩ | ⟨_ | b⟩
  all_goals try cases b
  all_goals try rcases hm : cfg.valuation.max_ev_ebitda with _ | m
  all_goals simp only [contrib, sigWeight]
  all_goals try simp only [hm]
  all_goals try split_ifs
  all_goals norm_num

theorem contrib_eq_zero_or_weight (cfg : ScreenerConfig) (s : Signal) (v : SigVal) :
    contrib cfg s v = 0 ∨ contrib cfg s v = sigWeight s := by
  cases s <;> rcases v with ⟨_ | x⟩ | ⟨_ | b⟩
  all_goals try cases b
  all_goals try rcases hm : cfg.valuation.max_ev_ebitda with _ | m
  all_goals simp only [contrib, sigWeight]
  all_goals try simp only [hm]
  all_goals try split_ifs
  all_goals norm_num

theorem contrib_unknown_eq_zero (cfg : ScreenerConfig) (s : Signal) :
    contrib cfg s (unknownSigVal s) = 0 := by
  cases s <;> rfl

theorem contrib_eq_zero_of_not_favorable (cfg : ScreenerConfig) (s : Signal)
    (v : SigVal) (h : ¬ favorable cfg s v) : contrib cfg s v = 0 := by
  cases s <;> rcases v with ⟨_ | x⟩ | ⟨_ | b⟩
  all_goals try cases b
  all_goals try rcases hm : cfg.valuation.max_ev_ebitda with _ | m
  all_goals simp only [contrib, favorable] at h ⊢
  all_goals try simp only [hm] at h ⊢
  all_goals try split_ifs
  all_goals first
    | rfl
    | exact absurd (by tauto) h

theorem setSignal_kind_mismatch (r : ScreenRow) (s : Signal) (v : SigVal)
    (h : kindOk s v = false) : setSignal r s v = r := by
  cases s <;> rcases v with ⟨x⟩ | ⟨b⟩ <;> simp_all [kindOk, setSignal]

theorem favorable_kindOk (cfg : ScreenerConfig) (s : Signal) (v : SigVal)
    (h : favorable cfg s v) : kindOk s v = true := by
  cases s <;> rcases v with ⟨_ | x⟩ | ⟨_ | b⟩ <;> simp_all [kindOk, favorable]

theorem score_setSignal (cfg : ScreenerConfig) (r : ScreenRow) (s : Signal)
    (v : SigVal) (h : kindOk s v = true) :
    score_buy_row cfg (setSignal r s v)
      = score_buy_row cfg r - contrib cfg s (getSignal r s) + contrib cfg s v := by
  cases s <;> rcases v with ⟨x⟩ | ⟨b⟩
  all_goals simp_all only [kindOk, Bool.false_eq_true]
  all_goals dsimp only [score_buy_row, setSignal, getSignal]
  all_goals ring

/-- The fifteen signals as a vector, in the order `_score_buy_row` adds them. -/
def signalOfFin : Fin 15 → Signal :=
  ![.pe, .pb, .evEbitda, .revenueCagr, .epsCagr, .roe, .roce, .debtToEquity,
    .interestCoverage, .promoterChange, .priceAbove200d, .sma50Above200d,
    .withinPctHigh, .rsi14, .volumeMult]

/-- The fifteen fixed weights of `_score_buy_row`, in the same order. -/
def sigWeights : Fin 15 → ℚ :=
  ![1, 1, 1, 1, 1, 1, 1, 1, 1, 1, 1, 1, 1, 1/2, 1/2]

/-- The i-th contribution to a row's score. -/
def contribAt (cfg : ScreenerConfig) (r : ScreenRow) (i : Fin 15) : ℚ :=
  contrib cfg (signalOfFin i) (getSignal r (signalOfFin i))

theorem sigWeights_eq (i : Fin 15) : sigWeights i = sigWeight (signalOfFin i) := by
  fin_cases i <;> rfl

theorem score_buy_row_eq_sum (cfg : ScreenerConfig) (r : ScreenRow) :
    score_buy_row cfg r = ∑ i, contribAt cfg r i := by
  simp only [score_buy_row, contribAt, signalOfFin, Fin.sum_univ_succ,
    Matrix.cons_val_zero, Matrix.cons_val_succ, Finset.univ_eq_empty,
    Finset.sum_empty, Fin.isValue]
  ring

/-! ## Claim C10: score bounds and shape -/

/-- C10: for every row and configuration the score of `_score_buy_row` lies in
[0, 14] and is a sum of a subset of the fifteen fixed weights (thirteen
full-weight 1.0 contributions and two half-weight 0.5 contributions). -/
theorem score_buy_row_bounds_and_subset_sum (cfg : ScreenerConfig) (r : ScreenRow) :
    0 ≤ score_buy_row cfg r ∧ score_buy_row cfg r ≤ 14 ∧
      ∃ b : Fin 15 → Bool,
        score_buy_row cfg r = ∑ i, (if b i then sigWeights i else 0) := by
  rw [score_buy_row_eq_sum]
  refine ⟨Finset.sum_nonneg fun i _ => contrib_nonneg cfg _ _, ?_, ?_⟩
  · have h1 : ∑ i, contribAt cfg r i ≤ ∑ i, sigWeights i :=
      Finset.sum_le_sum fun i _ => by
        rw [sigWeights_eq]; exact contrib_le_weight cfg _ _
    have h2 : ∑ i, sigWeights i = 14 := by
      simp [sigWeights, Fin.sum_univ_succ]
      norm_num
    rw [h2] at h1
    exact h1
  · refine ⟨fun i => decide (contribAt cfg r i ≠ 0), Finset.sum_congr rfl fun i _ => ?_⟩
    rcases contrib_eq_zero_or_weight cfg (signalOfFin i) (getSignal r (signalOfFin i)) with h | h
    · have hi : contribAt cfg r i = 0 := h
      simp [hi]
    · have hi : contribAt cfg r i = sigWeights i := by
        rw [contribAt, h, sigWeights_eq]
      have hw : sigWeights i ≠ 0 := by fin_cases i <;> norm_num [sigWeights]
      simp [hi, hw]

/-! ## Claim C7: monotone scoring -/

/-- C7: replacing a previously-unknown signal by a value meeting its favorable
threshold never decreases the score; replacing any signal by an unfavorable or
unknown value never increases it; and an unknown signal contributes exactly
zero. -/
theorem score_buy_row_monotone (cfg : ScreenerConfig) (r : ScreenRow)
    (s : Signal) (v : SigVal) :
    (getSignal r s = unknownSigVal s → favorable cfg s v →
      score_buy_row cfg r ≤ score_buy_row cfg (setSignal r s v)) ∧
    (¬ favorable cfg s v →
      score_buy_row cfg (setSignal r s v) ≤ score_buy_row cfg r) ∧
    contrib cfg s (unknownSigVal s) = 0 := by
  refine ⟨?_, ?_, contrib_unknown_eq_zero cfg s⟩
  · intro h hf
    rw [score_setSignal cfg r s v (favorable_kindOk cfg s v hf), h,
      contrib_unknown_eq_zero cfg s]
    have := contrib_nonneg cfg s v
    linarith
  · intro hnf
    rcases hk : kindOk s v with _ | _
    · rw [setSignal_kind_mismatch r s v hk]
    · rw [score_setSignal cfg r s v hk,
        contrib_eq_zero_of_not_favorable cfg s v hnf]
      have := contrib_nonneg cfg s (getSignal r s)
      linarith

/-- Witness for C7 at a concrete input: the all-unknown row, a favorable PE of
10 under the default configuration, and an unfavorable PE of 100. -/
theorem score_buy_row_monotone_witness :
    (score_buy_row DEFAULT_CONFIG { ticker := "X.NS" } ≤
      score_buy_row DEFAULT_CONFIG
        (setSignal { ticker := "X.NS" } .pe (.num (some 10)))) ∧
    (score_buy_row DEFAULT_CONFIG
        (setSignal { ticker := "X.NS" } .pe (.num (some 100))) ≤
      score_buy_row DEFAULT_CONFIG { ticker := "X.NS" }) := by
  constructor
  · exact (score_buy_row_monotone DEFAULT_CONFIG { ticker := "X.NS" } .pe
      (.num (some 10))).1 rfl ⟨by decide, by decide⟩
  · exact (score_buy_row_monotone DEFAULT_CONFIG { ticker := "X.NS" } .pe
      (.num (some 100))).2.1 (by intro hf; exact absurd hf.2 (by decide))

/-! ## Claim C6: filter idempotence -/

/-- C6: both the prefilter and the hard filter are idempotent — re-applying
either to its own output returns exactly the same row list. -/
theorem prefilter_hardFilter_idempotent (cfg : ScreenerConfig) (rows : List ScreenRow) :
    applyPrefilter cfg (applyPrefilter cfg rows) = applyPrefilter cfg rows ∧
    applyHardFilter cfg (applyHardFilter cfg rows) = applyHardFilter cfg rows := by
  constructor <;>
    simp [applyPrefilter, applyHardFilter, List.filter_filter]

/-! ## Claim C1: unknown fields and the filters -/

/-- A row whose every field except the ticker is unknown, as produced for a
symbol whose price-history download failed. -/
def screenRowAllUnknown : ScreenRow := { ticker := "FAIL.NS" }

/-- Inputs in which every external fetch fails or returns nothing. -/
def inputsAllFail : ScreenInputs :=
  { hist := fun _ => [], funda := fun _ => {}, prom := fun _ => none }

/-- Counterexample to C1: under the default configuration (which enables the
price-above-200d requirement), the all-unknown row — whose `price_above_200d`
field is unknown — fails the prefilter and the hard filter, and a buy-mode run
over a single failed symbol returns no rows at all.  The unknown trend flag
alone causes the exclusion, because the mask `df["price_above_200d"] == True`
has no `isna()` escape. -/
theorem unknown_trend_flag_excluded_counterexample :
    screenRowAllUnknown.price_above_200d = none ∧
    prefilterKeep DEFAULT_CONFIG screenRowAllUnknown = false ∧
    hardFilterKeep DEFAULT_CONFIG screenRowAllUnknown = false ∧
    condWithinPct DEFAULT_CONFIG screenRowAllUnknown = true ∧
    condRsiBand DEFAULT_CONFIG screenRowAllUnknown = true ∧
    condVolumeMult DEFAULT_CONFIG screenRowAllUnknown = true ∧
    runScreenRows ["FAIL.NS"] DEFAULT_CONFIG inputsAllFail true = [] := by
  decide

/-- C1 as amended: every numeric threshold condition of the prefilter and the
hard filter treats an unknown field as a pass, but the two boolean trend
conditions, when enabled in the configuration, exclude a row whose flag is
unknown. -/
theorem numeric_thresholds_pass_unknown (cfg : ScreenerConfig) (r : ScreenRow) :
    (r.within_pct_52w_high = none → condWithinPct cfg r = true) ∧
    (r.rsi14 = none → condRsiBand cfg r = true) ∧
    (r.volume_mult_vs_50d = none → condVolumeMult cfg r = true) ∧
    (r.pe = none → condPe cfg r = true) ∧
    (r.pb = none → condPb cfg r = true) ∧
    (r.ev_ebitda = none → condEvEbitda cfg r = true) ∧
    (r.revenue_cagr_3y = none → condRevenueCagr cfg r = true) ∧
    (r.eps_cagr_3y = none → condEpsCagr cfg r = true) ∧
    (r.roe = none → condRoe cfg r = true) ∧
    (r.roce = none → condRoce cfg r = true) ∧
    (r.debt_to_equity = none → condDebtToEquity cfg r = true) ∧
    (r.interest_coverage = none → condInterestCoverage cfg r = true) ∧
    (r.promoter_change_qoq_pct_pts = none → condPromoterChange cfg r = true) ∧
    (cfg.technical.price_above_200d = true → r.price_above_200d = none →
      condPriceAbove200d cfg r = false) ∧
    (cfg.technical.sma50_above_200d = true → r.sma50_above_200d = none →
      condSma50Above200d cfg r = false) := by
  refine ⟨fun h => ?_, fun h => ?_, fun h => ?_, fun h => ?_, fun h => ?_,
    fun h => ?_, fun h => ?_, fun h => ?_, fun h => ?_, fun h => ?_,
    fun h => ?_, fun h => ?_, fun h => ?_, fun hc h => ?_, fun hc h => ?_⟩ <;>
    simp [condWithinPct, condRsiBand, condVolumeMult, condPe, condPb,
      condEvEbitda, condRevenueCagr, condEpsCagr, condRoe, condRoce,
      condDebtToEquity, condInterestCoverage, condPromoterChange,
      condPriceAbove200d, condSma50Above200d, h]
  · cases cfg.valuation.max_ev_ebitda <;> rfl
  · simp [hc]
  · simp [hc]

/-- Witness for the amended C1 at the all-unknown row under the default
configuration. -/
theorem numeric_thresholds_pass_unknown_witness :
    condWithinPct DEFAULT_CONFIG screenRowAllUnknown = true ∧
    condPe DEFAULT_CONFIG screenRowAllUnknown = true ∧
    condPriceAbove200d DEFAULT_CONFIG screenRowAllUnknown = false := by
  have H := numeric_thresholds_pass_unknown DEFAULT_CONFIG screenRowAllUnknown
  exact ⟨H.1 rfl, H.2.2.2.1 rfl, H.2.2.2.2.2.2.2.2.2.2.2.2.2.1 rfl rfl⟩

/-! ## Claims C3 and C4: snapshot moving average and RSI -/

theorem snapshot_isSome (df : List Bar) :
    (compute_technical_snapshot df).isSome ↔ df.isEmpty = false := by
  unfold compute_technical_snapshot
  split_ifs with h <;> simp [h]

theorem snapshot_fields (df : List Bar) (t : TechnicalSnapshot)
    (h : compute_technical_snapshot df = some t) :
    t.sma200 = simple_moving_average_last (df.filterMap Bar.close) 200 ∧
    t.sma50 = simple_moving_average_last (df.filterMap Bar.close) 50 ∧
    t.rsi14 = rsi_last (df.filterMap Bar.close) := by
  unfold compute_technical_snapshot at h
  by_cases he : df.isEmpty
  · rw [if_pos he] at h
    exact Option.noConfusion h
  · rw [if_neg he] at h
    obtain rfl := Option.some.inj h
    exact ⟨rfl, rfl, rfl⟩

theorem sma_last_isSome (xs : List ℚ) (w : ℕ) :
    (simple_moving_average_last xs w).isSome ↔ max 1 (w / 2) ≤ min w xs.length := by
  simp only [simple_moving_average_last, rollingMeanLast]
  split_ifs with h <;> simp [h]

theorem avg_gain_last_nonneg (xs : List ℚ) (g : ℚ)
    (h : avg_gain_last xs = some g) : 0 ≤ g := by
  simp only [avg_gain_last] at h
  split_ifs at h with hlen
  obtain rfl := Option.some.inj h
  apply div_nonneg _ (by norm_num)
  apply List.sum_nonneg
  intro x hx
  have hx' := List.mem_of_mem_drop hx
  simp only [gainsOf, List.mem_map] at hx'
  obtain ⟨d, -, rfl⟩ := hx'
  exact le_max_right d 0

theorem avg_loss_last_nonneg (xs : List ℚ) (l : ℚ)
    (h : avg_loss_last xs = some l) : 0 ≤ l := by
  simp only [avg_loss_last] at h
  split_ifs at h with hlen
  obtain rfl := Option.some.inj h
  apply div_nonneg _ (by norm_num)
  apply List.sum_nonneg
  intro x hx
  have hx' := List.mem_of_mem_drop hx
  simp only [lossesOf, List.mem_map] at hx'
  obtain ⟨d, -, rfl⟩ := hx'
  exact le_max_right (-d) 0

theorem rsi_last_bounds (xs : List ℚ) (v : ℚ) (h : rsi_last xs = some v) :
    0 ≤ v ∧ v ≤ 100 := by
  unfold rsi_last at h
  rcases hg : avg_gain_last xs with _ | g <;> rw [hg] at h
  · exact Option.noConfusion h
  · rcases hl : avg_loss_last xs with _ | l <;> rw [hl] at h
    · exact Option.noConfusion h
    · dsimp only at h
      split_ifs at h with hl0
      obtain rfl := Option.some.inj h
      have hg0 := avg_gain_last_nonneg xs g hg
      have hl0' := avg_loss_last_nonneg xs l hl
      have hlpos : 0 < l := lt_of_le_of_ne hl0' (Ne.symm hl0)
      have hq : 0 ≤ g / l := div_nonneg hg0 hl0'
      have h1 : (0 : ℚ) < 1 + g / l := by linarith
      have h2 : 100 / (1 + g / l) ≤ 100 := div_le_self (by norm_num) (by linarith)
      have h3 : 0 < 100 / (1 + g / l) := div_pos (by norm_num) h1
      constructor <;> linarith

theorem rsi_last_of_zero_loss (xs : List ℚ)
    (h : avg_loss_last xs = some 0) : rsi_last xs = none := by
  unfold rsi_last
  rcases hg : avg_gain_last xs with _ | g
  · rfl
  · rw [h]
    simp

/-- A price frame of exactly 199 identical daily bars. -/
def bars199 : List Bar :=
  List.replicate 199 { close := some 1, high := some 1, low := some 1, volume := some 1 }

theorem bars199_closes : bars199.filterMap Bar.close = List.replicate 199 (1 : ℚ) := by
  simp [bars199, List.filterMap_replicate]

theorem sma200_replicate199 :
    simple_moving_average_last (List.replicate 199 (1 : ℚ)) 200 = some 1 := by
  simp only [simple_moving_average_last, rollingMeanLast, List.length_replicate]
  norm_num [List.drop_replicate, List.sum_replicate]

theorem sma50_replicate199 :
    simple_moving_average_last (List.replicate 199 (1 : ℚ)) 50 = some 1 := by
  simp only [simple_moving_average_last, rollingMeanLast, List.length_replicate]
  norm_num [List.drop_replicate, List.sum_replicate]

/-- Twenty identical daily bars: a flat series with no deltas. -/
def barsFlat : List Bar :=
  List.replicate 20 { close := some 1, high := some 1, low := some 1, volume := some 1 }

theorem barsFlat_closes : barsFlat.filterMap Bar.close = List.replicate 20 (1 : ℚ) := by
  simp [barsFlat, List.filterMap_replicate]

theorem diffs_replicate (n : ℕ) (a : ℚ) :
    diffs (List.replicate n a) = List.replicate (n - 1) 0 := by
  unfold diffs
  rw [List.tail_replicate, List.zip_replicate, List.map_replicate]
  simp

theorem avg_loss_flat20 : avg_loss_last (List.replicate 20 (1 : ℚ)) = some 0 := by
  simp only [avg_loss_last, diffs_replicate, lossesOf, List.map_replicate, List.length_replicate]
  norm_num [List.drop_replicate, List.sum_replicate]

/-- A daily bar whose close, high and low all equal `c`. -/
def wbar (c : ℚ) : Bar := { close := some c, high := some c, low := some c, volume := some 1 }

/-- Sixteen strictly falling daily closes: every delta is a loss, so the RSI at
the last row is exactly 0. -/
def barsDescending : List Bar :=
  [wbar 16, wbar 15, wbar 14, wbar 13, wbar 12, wbar 11, wbar 10, wbar 9,
   wbar 8, wbar 7, wbar 6, wbar 5, wbar 4, wbar 3, wbar 2, wbar 1]

theorem barsDescending_closes :
    barsDescending.filterMap Bar.close
      = [16, 15, 14, 13, 12, 11, 10, 9, 8, 7, 6, 5, 4, 3, 2, 1] := by
  rfl

theorem diffs_descending :
    diffs [(16 : ℚ), 15, 14, 13, 12, 11, 10, 9, 8, 7, 6, 5, 4, 3, 2, 1]
      = List.replicate 15 (-1) := by
  norm_num [diffs, List.zip, List.zipWith, List.replicate_succ]

theorem rsi_descending :
    rsi_last [(16 : ℚ), 15, 14, 13, 12, 11, 10, 9, 8, 7, 6, 5, 4, 3, 2, 1] = some 0 := by
  have hmax0 : max (-1 : ℚ) 0 = 0 := by norm_num
  have hmax1 : max (-(-1) : ℚ) 0 = 1 := by norm_num
  have hg : avg_gain_last [(16 : ℚ), 15, 14, 13, 12, 11, 10, 9, 8, 7, 6, 5, 4, 3, 2, 1]
      = some 0 := by
    simp only [avg_gain_last, diffs_descending, gainsOf, List.map_replicate, hmax0,
      List.length_replicate]
    norm_num [List.drop_replicate, List.sum_replicate]
  have hl : avg_loss_last [(16 : ℚ), 15, 14, 13, 12, 11, 10, 9, 8, 7, 6, 5, 4, 3, 2, 1]
      = some 1 := by
    simp only [avg_loss_last, diffs_descending, lossesOf, List.map_replicate, hmax1,
      List.length_replicate]
    norm_num [List.drop_replicate, List.sum_replicate]
  rw [rsi_last, hg, hl]
  norm_num

/-- C3 (amended): the snapshot's moving averages are computed at the most
recent row and are known exactly when the (NaN-free) close series holds at
least `max 1 (window / 2)` observations in total — 100 closes for `sma200`, 25
for `sma50` — the trailing window being truncated to the available history.  In
particular a 199-close series has a *known* `sma200`. -/
theorem sma_snapshot_min_window (df : List Bar) (t : TechnicalSnapshot)
    (h : compute_technical_snapshot df = some t) :
    (t.sma200.isSome ↔ 100 ≤ (df.filterMap Bar.close).length) ∧
    (t.sma50.isSome ↔ 25 ≤ (df.filterMap Bar.close).length) := by
  obtain ⟨h200, h50, -⟩ := snapshot_fields df t h
  rw [h200, h50, sma_last_isSome, sma_last_isSome]
  constructor <;> constructor <;> intro <;> omega

/-- Counterexample to C3: a price series of exactly 199 daily closes yields a
*known* `sma200` (the mean of all 199 observations — the 200-row trailing
window is truncated to the available history and 199 ≥ `min_periods` = 100),
not an unknown one. -/
theorem sma200_known_at_199_closes :
    bars199.length = 199 ∧
    ∃ t, compute_technical_snapshot bars199 = some t ∧
      t.sma200 = some 1 ∧ t.sma50 = some 1 := by
  refine ⟨by simp [bars199], ?_⟩
  have hs : (compute_technical_snapshot bars199).isSome := by
    rw [snapshot_isSome]
    simp [bars199, List.isEmpty_iff]
  obtain ⟨t, ht⟩ := Option.isSome_iff_exists.mp hs
  refine ⟨t, ht, ?_, ?_⟩
  · rw [(snapshot_fields bars199 t ht).1, bars199_closes, sma200_replicate199]
  · rw [(snapshot_fields bars199 t ht).2.1, bars199_closes, sma50_replicate199]

/-- Witness for the amended C3 at the 199-close series. -/
theorem sma_snapshot_min_window_witness :
    ∃ t, compute_technical_snapshot bars199 = some t ∧
      t.sma200.isSome ∧ t.sma50.isSome := by
  have hs : (compute_technical_snapshot bars199).isSome := by
    rw [snapshot_isSome]
    simp [bars199]
  obtain ⟨t, ht⟩ := Option.isSome_iff_exists.mp hs
  have H := sma_snapshot_min_window bars199 t ht
  have hlen : (bars199.filterMap Bar.close).length = 199 := by
    rw [bars199_closes]
    simp
  exact ⟨t, ht, H.1.mpr (by omega), H.2.mpr (by omega)⟩

/-- C4: whenever the snapshot's `rsi14` is defined it lies within [0, 100], and
a zero 14-period average loss at the latest point makes the RSI unknown rather
than 100 or a clamped bound. -/
theorem rsi14_bounds_and_zero_loss_unknown (df : List Bar) (t : TechnicalSnapshot)
    (v : ℚ) :
    (compute_technical_snapshot df = some t → t.rsi14 = some v → 0 ≤ v ∧ v ≤ 100) ∧
    (compute_technical_snapshot df = some t →
      avg_loss_last (df.filterMap Bar.close) = some 0 → t.rsi14 = none) := by
  constructor
  · intro hs hv
    obtain ⟨-, -, hr⟩ := snapshot_fields df t hs
    rw [hr] at hv
    exact rsi_last_bounds _ v hv
  · intro hs hl
    obtain ⟨-, -, hr⟩ := snapshot_fields df t hs
    rw [hr]
    exact rsi_last_of_zero_loss _ hl

/-- Witness for C4: the strictly falling series has a defined RSI of 0, inside
[0, 100]; the flat series has a zero average loss and an unknown RSI. -/
theorem rsi14_bounds_witness :
    (∃ t v, compute_technical_snapshot barsDescending = some t ∧
      t.rsi14 = some v ∧ 0 ≤ v ∧ v ≤ 100) ∧
    (∃ t, compute_technical_snapshot barsFlat = some t ∧ t.rsi14 = none) := by
  constructor
  · have hs : (compute_technical_snapshot barsDescending).isSome := by
      rw [snapshot_isSome]
      rfl
    obtain ⟨t, ht⟩ := Option.isSome_iff_exists.mp hs
    have hr : t.rsi14 = some 0 := by
      rw [(snapshot_fields barsDescending t ht).2.2, barsDescending_closes, rsi_descending]
    exact ⟨t, 0, ht, hr,
      (rsi14_bounds_and_zero_loss_unknown barsDescending t 0).1 ht hr⟩
  · have hs : (compute_technical_snapshot barsFlat).isSome := by
      rw [snapshot_isSome]
      simp [barsFlat]
    obtain ⟨t, ht⟩ := Option.isSome_iff_exists.mp hs
    refine ⟨t, ht, (rsi14_bounds_and_zero_loss_unknown barsFlat t 0).2 ht ?_⟩
    rw [barsFlat_closes]
    exact avg_loss_flat20

/-! ## Claim C5: final ordering -/

theorem marketCapLE_total (x y : Option ℚ) :
    marketCapLE x y = true ∨ marketCapLE y x = true := by
  rcases x with _ | x <;> rcases y with _ | y <;> simp [marketCapLE]
  exact le_total y x

theorem marketCapLE_trans (x y z : Option ℚ) (h1 : marketCapLE x y = true)
    (h2 : marketCapLE y z = true) : marketCapLE x z = true := by
  rcases x with _ | x <;> rcases y with _ | y <;> rcases z with _ | z <;>
    simp_all [marketCapLE]
  exact le_trans h2 h1

theorem rowLE_iff (a b : ScreenRow × ℚ) :
    rowLE a b ↔ b.2 < a.2 ∨ (a.2 = b.2 ∧ marketCapLE a.1.market_cap b.1.market_cap = true) := by
  simp [rowLE, rowLEb, Bool.or_eq_true, Bool.and_eq_true, decide_eq_true_eq]

instance : IsTotal (ScreenRow × ℚ) rowLE where
  total a b := by
    rw [rowLE_iff, rowLE_iff]
    rcases lt_trichotomy a.2 b.2 with h | h | h
    · right
      left
      exact h
    · rcases marketCapLE_total a.1.market_cap b.1.market_cap with hm | hm
      · left
        right
        exact ⟨h, hm⟩
      · right
        right
        exact ⟨h.symm, hm⟩
    · left
      left
      exact h

instance : IsTrans (ScreenRow × ℚ) rowLE where
  trans a b c hab hbc := by
    rw [rowLE_iff] at hab hbc ⊢
    rcases hab with h1 | ⟨h1, m1⟩ <;> rcases hbc with h2 | ⟨h2, m2⟩
    · exact Or.inl (lt_trans h2 h1)
    · exact Or.inl (h2 ▸ h1)
    · exact Or.inl (h1 ▸ h2)
    · exact Or.inr ⟨h1.trans h2, marketCapLE_trans _ _ _ m1 m2⟩

/-- C5: the rows of the returned table are totally preordered by `rowLE`
(score descending, ties broken by market capitalization descending with
unknown market caps last), and the table is sorted with respect to it. -/
theorem run_screen_rows_sorted (symbols : List String) (cfg : ScreenerConfig)
    (inp : ScreenInputs) (for_buy : Bool) :
    (∀ a b : ScreenRow × ℚ, rowLE a b ∨ rowLE b a) ∧
    List.Sorted rowLE (runScreenRows symbols cfg inp for_buy) := by
  refine ⟨fun a b => IsTotal.total a b, ?_⟩
  unfold runScreenRows
  dsimp only
  split_ifs
  · exact List.sorted_nil
  · exact List.sorted_insertionSort rowLE _

/-! ## Claim C2: sell mode -/


theorem mkTechRow_ticker (s : String) (df : List Bar) : (mkTechRow s df).ticker = s := by
  unfold mkTechRow
  cases compute_technical_snapshot df <;> rfl

theorem enrichRow_ticker (b : ScreenRow) (f : FundamentalSnapshot)
    (p : Option PromoterSnapshot) : (enrichRow b f p).ticker = b.ticker := by
  unfold enrichRow
  cases p <;> rfl

theorem techMapGet_ticker (rows : List ScreenRow) (s : String) :
    ((techMapGet rows s).getD { ticker := s }).ticker = s := by
  rcases h : techMapGet rows s with _ | r
  · rfl
  · rw [Option.getD_some]
    have hmem : r ∈ (rows.filter fun r => r.ticker == s).getLast? := h
    obtain ⟨hne, rfl⟩ := List.mem_getLast?_eq_getLast hmem
    have hr := List.getLast_mem hne
    exact eq_of_beq (List.mem_filter.mp hr).2

theorem techRows_map_ticker (symbols : List String) (inp : ScreenInputs) :
    (techRows symbols inp).map ScreenRow.ticker = symbols := by
  unfold techRows
  rw [List.map_map]
  have : (ScreenRow.ticker ∘ fun s => mkTechRow s (inp.hist s)) = id := by
    funext s
    simp [mkTechRow_ticker]
  rw [this, List.map_id]

/-- The symbol list the fundamentals cap leaves, as the spec's sell-mode
description must be amended to state it. -/
def cappedList (cfg : ScreenerConfig) (symbols : List String) : List String :=
  match cfg.run.fundamentals_max_symbols with
  | some m => symbols.take m
  | none => symbols

def sellModeExpectedTickers (symbols : List String) (cfg : ScreenerConfig) : List String :=
  if (cappedList cfg symbols).isEmpty then symbols else cappedList cfg symbols

theorem symbolsForFunda_sell (symbols : List String) (cfg : ScreenerConfig)
    (inp : ScreenInputs) :
    symbolsForFunda symbols cfg inp false = cappedList cfg symbols := by
  unfold symbolsForFunda cappedList
  have hpre : prefilteredRows symbols cfg inp false = techRows symbols inp := by
    simp [prefilteredRows]
  rw [hpre]
  by_cases hs : (techRows symbols inp).isEmpty
  · have hnil : symbols = [] := by
      have := techRows_map_ticker symbols inp
      rw [List.isEmpty_iff] at hs
      rw [hs] at this
      exact this.symm
    subst hnil
    simp [techRows]
  · simp only [hs, if_false, Bool.false_eq_true, techRows_map_ticker]

theorem enrichedRows_map_ticker_sell (symbols : List String) (cfg : ScreenerConfig)
    (inp : ScreenInputs) :
    (enrichedRows symbols cfg inp false).map ScreenRow.ticker = cappedList cfg symbols := by
  unfold enrichedRows
  rw [List.map_map, symbolsForFunda_sell]
  have : ∀ s ∈ cappedList cfg symbols,
      (ScreenRow.ticker ∘ fun s =>
        enrichRow ((techMapGet (techRows symbols inp) s).getD { ticker := s })
          (inp.funda s) (inp.prom (s.replace ".NS" ""))) s = s := by
    intro s _
    simp [enrichRow_ticker, techMapGet_ticker]
  rw [List.map_congr_left this]
  simp

/-- C2 (amended): sell mode applies neither filter, but the returned tickers
are a permutation (the final score sort) of the *capped* symbol list. -/
theorem sell_mode_rows_perm (symbols : List String) (cfg : ScreenerConfig)
    (inp : ScreenInputs) :
    ((runScreenRows symbols cfg inp false).map fun p => p.1.ticker).Perm
      (sellModeExpectedTickers symbols cfg) := by
  unfold runScreenRows sellModeExpectedTickers
  dsimp only
  have hhard : hardFilteredRows symbols cfg inp false
      = dfRowsAfterEnrich symbols cfg inp false := by
    simp [hardFilteredRows]
  rw [hhard]
  unfold dfRowsAfterEnrich
  dsimp only
  by_cases hce : (enrichedRows symbols cfg inp false).isEmpty
  · have hcap : (cappedList cfg symbols).isEmpty := by
      have := enrichedRows_map_ticker_sell symbols cfg inp
      rw [List.isEmpty_iff] at hce ⊢
      rw [hce] at this
      exact this.symm
    rw [if_pos hce, if_pos hcap]
    by_cases hte : (techRows symbols inp).isEmpty
    · have hnil : symbols = [] := by
        have := techRows_map_ticker symbols inp
        rw [List.isEmpty_iff] at hte
        rw [hte] at this
        exact this.symm
      rw [if_pos hte, hnil]
      simp
    · rw [if_neg hte]
      have hperm := (List.perm_insertionSort rowLE
        ((techRows symbols inp).map fun r => (r, score_buy_row cfg r))).map
          fun p : ScreenRow × ℚ => p.1.ticker
      refine hperm.trans ?_
      rw [List.map_map]
      have : ((fun p : ScreenRow × ℚ => p.1.ticker) ∘ fun r => (r, score_buy_row cfg r))
          = ScreenRow.ticker := rfl
      rw [this, techRows_map_ticker]
  · have hcap : ¬ (cappedList cfg symbols).isEmpty := by
      intro hc
      apply hce
      have h1 := enrichedRows_map_ticker_sell symbols cfg inp
      rw [List.isEmpty_iff] at hc ⊢
      rw [hc] at h1
      exact List.map_eq_nil_iff.mp h1
    rw [if_neg hce, if_neg hce, if_neg hcap]
    have hperm := (List.perm_insertionSort rowLE
      ((enrichedRows symbols cfg inp false).map fun r => (r, score_buy_row cfg r))).map
        fun p : ScreenRow × ℚ => p.1.ticker
    refine hperm.trans ?_
    rw [List.map_map]
    have : ((fun p : ScreenRow × ℚ => p.1.ticker) ∘ fun r => (r, score_buy_row cfg r))
        = ScreenRow.ticker := rfl
    rw [this, enrichedRows_map_ticker_sell]

def inpSellDemo : ScreenInputs :=
  { hist := fun _ => []
    funda := fun s => if s = "B.NS" then { debt_to_equity := some 0 } else {}
    prom := fun _ => none }

def rowADemo : ScreenRow := { ticker := "A.NS" }

def rowBDemo : ScreenRow := { ticker := "B.NS", debt_to_equity := some 0 }

def cfgCapOne : ScreenerConfig := { run := { fundamentals_max_symbols := some 1 } }

theorem demo_hard_rows :
    hardFilteredRows ["A.NS", "B.NS"] DEFAULT_CONFIG inpSellDemo false
      = [rowADemo, rowBDemo] := by decide

theorem demo_hard_rows_cap :
    hardFilteredRows ["A.NS", "B.NS"] cfgCapOne inpSellDemo false = [rowADemo] := by decide

theorem demo_scoreA : score_buy_row DEFAULT_CONFIG rowADemo = 0 := by
  norm_num [score_buy_row, contrib, getSignal, rowADemo]

theorem demo_scoreB : score_buy_row DEFAULT_CONFIG rowBDemo = 1 := by
  norm_num [score_buy_row, contrib, getSignal, rowBDemo, DEFAULT_CONFIG]

/-- Counterexample to C2: in sell mode with two symbols, the default
configuration returns the rows re-sorted by score (B before A), not in
pipeline order; and with `fundamentals_max_symbols = 1` the second symbol's
row is dropped entirely. -/
theorem sell_mode_counterexample :
    ((runScreenRows ["A.NS", "B.NS"] DEFAULT_CONFIG inpSellDemo false).map
        fun p => p.1.ticker) = ["B.NS", "A.NS"] ∧
    (runScreenRows ["A.NS", "B.NS"] cfgCapOne inpSellDemo false).map
        (fun p => p.1.ticker) = ["A.NS"] := by
  constructor
  · unfold runScreenRows
    rw [demo_hard_rows]
    have hle : rowLEb (rowADemo, score_buy_row DEFAULT_CONFIG rowADemo)
        (rowBDemo, score_buy_row DEFAULT_CONFIG rowBDemo) = false := by
      rw [rowLEb]
      norm_num [demo_scoreA, demo_scoreB, marketCapLE]
    simp only [List.insertionSort, List.orderedInsert, List.map_nil, List.isEmpty_cons,
      Bool.false_eq_true, if_false, List.map_cons, rowLE, hle]
    exact rfl
  · unfold runScreenRows
    rw [demo_hard_rows_cap]
    simp only [List.insertionSort, List.orderedInsert, List.map_nil, List.isEmpty_cons,
      Bool.false_eq_true, if_false, List.map_cons]
    exact rfl

/-! ## Claim C8: universe provider errors -/

/-- A network oracle that always delivers a CSV with no symbol column. -/
def netNoSymbolColumn : String → HttpResult :=
  fun _ => .ok { columns := ["Company Name", "Industry"], symbols := [] }

/-- Counterexample to C8: an unrecognized index name is *not* the only raising
condition — with the recognized index `NIFTY50`, a fetched CSV without a
`Symbol` column raises `"Symbol column not found in index CSV"` (and an HTTP
error status raises through `raise_for_status` as well). -/
theorem recognized_index_can_raise :
    fetch_nifty_constituents netNoSymbolColumn "NIFTY50"
        = .error "Symbol column not found in index CSV" ∧
    NIFTY_CSV_URLS.lookup (upperString "NIFTY50") ≠ none ∧
    (∀ status, fetch_nifty_constituents (fun _ => .httpError status) "NIFTY50"
        = .error ("HTTPError " ++ toString status)) := by
  refine ⟨by rfl, by decide, fun status => ?_⟩
  rfl

/-- C8 (amended): an unrecognized index name raises `Unsupported index`
immediately, before and independent of any network fetch (the result is the
same under every network oracle), and `build_universe` propagates that error. -/
theorem unknown_index_raises_before_any_fetch (net net2 : String → HttpResult)
    (name : String) (lim : Option ℕ)
    (h : NIFTY_CSV_URLS.lookup (upperString name) = none) :
    fetch_nifty_constituents net name
        = .error ("Unsupported index: " ++ upperString name) ∧
    fetch_nifty_constituents net name = fetch_nifty_constituents net2 name ∧
    build_universe net name lim
        = .error ("Unsupported index: " ++ upperString name) := by
  refine ⟨?_, ?_, ?_⟩ <;>
    simp [fetch_nifty_constituents, build_universe, h, Except.map]

/-- Witness for the amended C8 at the unrecognized index name `FOO`. -/
theorem unknown_index_raises_witness :
    fetch_nifty_constituents netNoSymbolColumn "FOO"
        = .error ("Unsupported index: " ++ upperString "FOO") := by
  exact (unknown_index_raises_before_any_fetch netNoSymbolColumn netNoSymbolColumn
    "FOO" none (by decide)).1

/-! ## Claim C9: output columns -/

theorem mem_addKey_left {a : String} {acc : List String} (k : String) (h : a ∈ acc) :
    a ∈ addKey acc k := by
  unfold addKey
  split_ifs <;> simp [h]

theorem mem_addKey_self (acc : List String) (k : String) : k ∈ addKey acc k := by
  unfold addKey
  split_ifs with hk
  · exact hk
  · simp

theorem mem_addKeys_left {a : String} (acc ks : List String) (h : a ∈ acc) :
    a ∈ addKeys acc ks := by
  induction ks generalizing acc with
  | nil => exact h
  | cons k ks ih =>
      rw [addKeys, List.foldl_cons]
      exact ih _ (mem_addKey_left k h)

theorem mem_addKeys_right {a : String} (acc ks : List String) (h : a ∈ ks) :
    a ∈ addKeys acc ks := by
  induction ks generalizing acc with
  | nil => cases h
  | cons k ks ih =>
      rw [addKeys, List.foldl_cons]
      rcases List.mem_cons.mp h with rfl | h'
      · exact mem_addKeys_left _ _ (mem_addKey_self acc a)
      · exact ih _ h'

theorem mem_foldl_addKeys_left {a : String} (acc : List String)
    (kls : List (List String)) (h : a ∈ acc) : a ∈ kls.foldl addKeys acc := by
  induction kls generalizing acc with
  | nil => exact h
  | cons kl kls ih =>
      rw [List.foldl_cons]
      exact ih _ (mem_addKeys_left _ _ h)

theorem mem_cols_of_head {a : String} (kl : List String) (kls : List (List String))
    (h : a ∈ kl) : a ∈ (kl :: kls).foldl addKeys [] := by
  rw [List.foldl_cons]
  exact mem_foldl_addKeys_left _ _ (mem_addKeys_right _ _ h)

/-- Every ScreenRow field of the data model, plus `score`. -/
def screenTableFields : List String :=
  ["ticker", "close", "sma50", "sma200", "rsi14", "vol", "vol50", "high_52w",
   "low_52w", "price_above_200d", "sma50_above_200d", "volume_mult_vs_50d",
   "within_pct_52w_high",
   "market_cap", "pe", "pb", "roe", "roce", "debt_to_equity", "interest_coverage",
   "revenue_cagr_3y", "eps_cagr_3y", "ev_ebitda",
   "promoter_latest_pct", "promoter_prev_pct", "promoter_change_qoq_pct_pts",
   "score"]

/-- C9 (amended): whenever the returned table is nonempty, it has a column for
every ScreenRow field of the data model plus `score`; in the model unknown
values are `none`, never zero.  (In the degenerate runs — empty universe, or
every row filtered out — the `score` column, and with an empty universe also
the ticker and per-symbol technical columns, are absent.) -/
theorem run_screen_table_columns (symbols : List String) (cfg : ScreenerConfig)
    (inp : ScreenInputs) (for_buy : Bool)
    (h : runScreenRows symbols cfg inp for_buy ≠ []) :
    ∀ c ∈ screenTableFields, c ∈ runScreenCols symbols cfg inp for_buy := by
  have hhard : hardFilteredRows symbols cfg inp for_buy ≠ [] := by
    intro hc
    apply h
    unfold runScreenRows
    rw [hc]
    rfl
  have hdf : dfRowsAfterEnrich symbols cfg inp for_buy ≠ [] := by
    intro hc
    apply hhard
    unfold hardFilteredRows
    rw [hc]
    simp [applyHardFilter]
  have hbool : (hardFilteredRows symbols cfg inp for_buy).isEmpty = false := by
    rcases hx : hardFilteredRows symbols cfg inp for_buy with _ | ⟨r, rs⟩
    · exact absurd hx hhard
    · rfl
  unfold runScreenCols
  dsimp only
  rw [hbool]
  simp only [Bool.false_eq_true, if_false]
  have hexp : ∀ c ∈ expectedCols,
      c ∈ addKey (addKeys ((dfKeyLists symbols cfg inp for_buy).foldl addKeys [])
        expectedCols) "score" :=
    fun c hc => mem_addKey_left _ (mem_addKeys_right _ _ hc)
  have hscore :
      "score" ∈ addKey (addKeys ((dfKeyLists symbols cfg inp for_buy).foldl addKeys [])
        expectedCols) "score" :=
    mem_addKey_self _ _
  have htech : ∀ c : String, (∀ b, c ∈ techRowKeys b) →
      c ∈ addKey (addKeys ((dfKeyLists symbols cfg inp for_buy).foldl addKeys [])
        expectedCols) "score" := by
    intro c hcb
    apply mem_addKey_left
    apply mem_addKeys_left
    unfold dfKeyLists
    dsimp only
    by_cases hcap : (symbolsForFunda symbols cfg inp for_buy).isEmpty
    · rw [if_pos hcap]
      have hsym : symbols ≠ [] := by
        intro hs
        apply hdf
        unfold dfRowsAfterEnrich enrichedRows
        dsimp only
        rw [List.isEmpty_iff.mp hcap]
        subst hs
        rfl
      rcases symbols with _ | ⟨s, ss⟩
      · exact absurd rfl hsym
      · rw [List.map_cons]
        exact mem_cols_of_head _ _ (hcb _)
    · rw [if_neg hcap]
      rcases hx : symbolsForFunda symbols cfg inp for_buy with _ | ⟨s, ss⟩
      · rw [hx] at hcap
        exact absurd rfl hcap
      · rw [List.map_cons]
        exact mem_cols_of_head _ _ (mem_addKeys_left _ _ (hcb _))
  intro c hc
  fin_cases hc <;>
    first
      | exact hscore
      | exact hexp _ (by decide)
      | exact htech _ (by decide)

/-- Counterexample to C9: a run over an empty symbol list returns a table whose
columns are exactly `expected_cols` — the `score`, `ticker` and `close` columns
(among others) are missing, because the `score` column is only assigned to a
nonempty frame. -/
theorem empty_universe_missing_columns :
    runScreenCols [] DEFAULT_CONFIG inputsAllFail true = expectedCols ∧
    "score" ∉ runScreenCols [] DEFAULT_CONFIG inputsAllFail true ∧
    "ticker" ∉ runScreenCols [] DEFAULT_CONFIG inputsAllFail true ∧
    "close" ∉ runScreenCols [] DEFAULT_CONFIG inputsAllFail true ∧
    runScreenRows [] DEFAULT_CONFIG inputsAllFail true = [] := by
  refine ⟨by decide, by decide, by decide, by decide, rfl⟩

/-- Witness for the amended C9: a one-symbol sell-mode run returns a nonempty
table whose columns include `score`, `market_cap` and `close`. -/
theorem run_screen_table_columns_witness :
    runScreenRows ["W.NS"] DEFAULT_CONFIG inputsAllFail false ≠ [] ∧
    "score" ∈ runScreenCols ["W.NS"] DEFAULT_CONFIG inputsAllFail false ∧
    "market_cap" ∈ runScreenCols ["W.NS"] DEFAULT_CONFIG inputsAllFail false ∧
    "close" ∈ runScreenCols ["W.NS"] DEFAULT_CONFIG inputsAllFail false := by
  have hr : hardFilteredRows ["W.NS"] DEFAULT_CONFIG inputsAllFail false
      = [{ ticker := "W.NS" }] := by decide
  have hne : runScreenRows ["W.NS"] DEFAULT_CONFIG inputsAllFail false ≠ [] := by
    unfold runScreenRows
    rw [hr]
    simp [List.insertionSort, List.orderedInsert]
  have H := run_screen_table_columns ["W.NS"] DEFAULT_CONFIG inputsAllFail false hne
  exact ⟨hne, H "score" (by decide), H "market_cap" (by decide), H "close" (by decide)⟩
